import Mathlib

/-!
Shallow embedding of the `ngx-fetcher-with-etag` core: the `FetcherWithEtag`
cache-and-poll engine, the `PollingSubject` demand-driven stream, and the
`LocalDataLoader` index overlay, together with theorems checking the
natural-language specification against this embedding.

JavaScript conventions are modelled explicitly where the source depends on
them: `number | null` fields use `Option`, the result of `Date.getTime()`
may be NaN (modelled as a distinguished value), and JS truthiness treats
`null`, `NaN`, `0` and the empty string as falsy.
-/

namespace NgxFetcher

/-- Model of a JavaScript number stored in fetcher state: either NaN (as
produced by `new Date(...).getTime()` on an unparsable string) or a finite
integer timestamp. -/
inductive JsNum where
  | nan : JsNum
  | num : Int → JsNum
deriving DecidableEq, Repr

/-- Truthiness of a JavaScript `number | null` field such as `this.expires`:
`null`, `NaN` and `0` are falsy. -/
def truthyNumOpt : Option JsNum → Bool
  | none => false
  | some JsNum.nan => false
  | some (JsNum.num n) => n != 0

/-- Truthiness of a JavaScript optional integer field such as
`this.lastFetchTimestamp` or `this.refreshInterval`: absent and `0` are falsy. -/
def truthyIntOpt : Option Int → Bool
  | none => false
  | some n => n != 0

/-- Truthiness of a JavaScript `string | null | undefined` value: absent and
the empty string are falsy. -/
def truthyStrOpt : Option String → Bool
  | none => false
  | some s => s != ""

/-- Endpoint cache state of one `FetcherWithEtag` instance (the private
fields `url`, `etag`, `expires`, `lastFetchTimestamp`, `value` plus the
constructor parameters `refreshInterval` and `fetchRefreshesWithoutInterval`). -/
structure FetcherState (T : Type) where
  url : String
  etag : Option String
  expires : Option JsNum
  lastFetchTimestamp : Option Int
  value : Option T
  refreshInterval : Option Int
  fetchRefreshesWithoutInterval : Bool
deriving DecidableEq, Repr

/-- Model of `FetcherWithEtag.getRefreshIntervalInMilliseconds`, translated
line by line; `now` stands for `Date.now()`.  The JS `&&` chains are modelled
with the truthiness of each operand:
`isValidExpiration = this.expires && this.expires > now`,
`isValidRefreshInterval = this.lastFetchTimestamp && this.refreshInterval &&
this.lastFetchTimestamp + this.refreshInterval > now`, and
`isInvalidInterval = interval === 0 && this.value !== undefined &&
!this.expires && !this.refreshInterval`. -/
def getRefreshIntervalInMilliseconds {T : Type} (s : FetcherState T) (now : Int) : Option Int :=
  let interval1 : Int :=
    match s.expires with
    | some (JsNum.num e) => if e ≠ 0 ∧ now < e then e - now else 0
    | _ => 0
  let interval2 : Int :=
    match s.lastFetchTimestamp, s.refreshInterval with
    | some l, some r =>
      if l ≠ 0 ∧ r ≠ 0 ∧ now < l + r then
        let rr := l + r - now
        if interval1 = 0 ∨ rr < interval1 then rr else interval1
      else interval1
    | _, _ => interval1
  if interval2 = 0 ∧ s.value.isSome ∧ truthyNumOpt s.expires = false ∧
      truthyIntOpt s.refreshInterval = false then
    none
  else
    some interval2

/-- Freshness wait as described by claim C1, read literally from its words:
undefined exactly when a value is already known and neither an expiry nor a
refresh interval is configured (non-null); otherwise the minimum of the two
remaining durations (`expiresAt - now` when `expiresAt > now`, and
`lastFetchTimestamp + refreshInterval - now` when both are set and that
difference is positive) when at least one is present; and 0 when neither is
present. -/
def claimedRefreshIntervalC1 {T : Type} (s : FetcherState T) (now : Int) : Option Int :=
  if s.value.isSome ∧ s.expires = none ∧ s.refreshInterval = none then none
  else
    let er : Option Int :=
      match s.expires with
      | some (JsNum.num e) => if now < e then some (e - now) else none
      | _ => none
    let rr : Option Int :=
      match s.lastFetchTimestamp, s.refreshInterval with
      | some l, some r => if 0 < l + r - now then some (l + r - now) else none
      | _, _ => none
    match er, rr with
    | some a, some b => some (min a b)
    | some a, none => some a
    | none, some b => some b
    | none, none => some 0

/-- Freshness wait as in claim C1 amended to the JS truthiness the code
actually uses: a stored expiry equal to 0 or NaN, a refresh interval equal
to 0, and a last-fetch timestamp equal to 0 are all treated as absent. -/
def truthyRefreshIntervalC1 {T : Type} (s : FetcherState T) (now : Int) : Option Int :=
  if s.value.isSome ∧ truthyNumOpt s.expires = false ∧ truthyIntOpt s.refreshInterval = false then
    none
  else
    let er : Option Int :=
      match s.expires with
      | some (JsNum.num e) => if e ≠ 0 ∧ now < e then some (e - now) else none
      | _ => none
    let rr : Option Int :=
      match s.lastFetchTimestamp, s.refreshInterval with
      | some l, some r => if l ≠ 0 ∧ r ≠ 0 ∧ now < l + r then some (l + r - now) else none
      | _, _ => none
    match er, rr with
    | some a, some b => some (min a b)
    | some a, none => some a
    | none, some b => some b
    | none, none => some 0

/-- Model of `FetcherWithEtag.createExpires`: a falsy (`null` or empty)
`Expires` header yields `null`; otherwise the platform's
`new Date(expiresString).getTime()` result is stored, abstracted here by the
`parseDate` parameter (which yields `JsNum.nan` for unparsable strings). -/
def createExpires (parseDate : String → JsNum) : Option String → Option JsNum
  | none => none
  | some s => if s = "" then none else some (parseDate s)

/-- Model of `FetcherWithEtag.getHeaders` restricted to the conditional
revalidation header: `If-None-Match` is attached only when `this.etag` is
truthy (non-null and non-empty). -/
def ifNoneMatchHeader (etag : Option String) : Option String :=
  if truthyStrOpt etag then etag else none

/-- Resolved HTTP response as observed through Angular `HttpClient` with
`observe: response`: status, the `ETag` and `Expires` headers (absent
headers are `none`), and the body (`none` models a null or falsy body, as
tested by `!response.body`). -/
structure HttpResponseModel (RawT : Type) where
  status : Nat
  etagHeader : Option String
  expiresHeader : Option String
  body : Option RawT
deriving DecidableEq, Repr

/-- Outcome of the single awaited network call in `fetch()`: either the
promise resolves with a response, or it rejects with an `HttpErrorResponse`
carrying a status and headers (Angular signals non-2xx statuses and network
failures this way), or it rejects with something that is not an
`HttpErrorResponse` at all. -/
inductive TransportOutcome (RawT : Type) where
  | response : HttpResponseModel RawT → TransportOutcome RawT
  | httpError : Nat → Option String → Option String → TransportOutcome RawT
  | otherError : TransportOutcome RawT
deriving DecidableEq, Repr

/-- Observable side effects of one `fetch()` invocation, in program order:
`loadingSubject.next(b)`, the issuing of the HTTP request (with the value of
its `If-None-Match` header), an invocation of the caller-supplied converter,
and `dataSubject.next(v)`. -/
inductive FetchEvent (T : Type) where
  | loading : Bool → FetchEvent T
  | request : Option String → FetchEvent T
  | convertCall : FetchEvent T
  | emitData : T → FetchEvent T
deriving DecidableEq, Repr

/-- Reasons a `fetch()` invocation can reject: the `url is not set` error,
the `unexpected response` error thrown for a resolved non-200/304 status, a
throwing converter, an `HttpErrorResponse` rejection from the transport, and
any other rejection. -/
inductive FetchError where
  | urlNotSet : FetchError
  | unexpectedResponse : Nat → FetchError
  | converterError : FetchError
  | transportHttp : Nat → Option String → Option String → FetchError
  | transportOther : FetchError
deriving DecidableEq, Repr

/-- Result of `fetch()`: resolution with `this.value!` (which is `none` when
the non-null assertion is actually unjustified) or rejection. -/
inductive FetchResult (T : Type) where
  | ok : Option T → FetchResult T
  | err : FetchError → FetchResult T
deriving DecidableEq, Repr

/-- Caller-supplied capabilities of a `FetcherWithEtag` instance: the
converter (`none` models a throw), the equality contract, and the platform
date parser used by `createExpires`. -/
structure FetcherConfig (T RawT : Type) where
  converter : RawT → Option T
  isEqual : T → T → Bool
  parseDate : String → JsNum

/-- Full observable outcome of one `fetch()` invocation: the state after the
call, the emitted events in order, and the resolution or rejection. -/
structure FetchOut (T : Type) where
  state : FetcherState T
  events : List (FetchEvent T)
  result : FetchResult T
deriving DecidableEq, Repr

/-- Model of `FetcherWithEtag.fetch`, translated statement by statement.
`now` is the `Date.now()` used inside `getRefreshIntervalInMilliseconds` and
`nowAfter` the `Date.now()` stored into `lastFetchTimestamp` after the
response arrives; `transport` is the outcome of the awaited HTTP request.
Note that on the error paths of the transport no `loading false` is pushed
(the exception propagates past `loadingSubject.next(false)`), and that
`etag`, `lastFetchTimestamp` and `expires` are assigned before the converter
runs. -/
def fetchModel {T RawT : Type} (cfg : FetcherConfig T RawT) (s : FetcherState T)
    (now nowAfter : Int) (transport : TransportOutcome RawT) : FetchOut T :=
  let interval := getRefreshIntervalInMilliseconds s now
  if interval = none ∧ s.fetchRefreshesWithoutInterval = false then
    ⟨s, [], FetchResult.ok s.value⟩
  else if 0 < interval.getD 0 then
    ⟨s, [], FetchResult.ok s.value⟩
  else if s.url = "" then
    ⟨s, [], FetchResult.err FetchError.urlNotSet⟩
  else
    let inm := ifNoneMatchHeader s.etag
    let ev0 := [FetchEvent.loading true, FetchEvent.request inm]
    match transport with
    | TransportOutcome.httpError st eh xh =>
      ⟨s, ev0, FetchResult.err (FetchError.transportHttp st eh xh)⟩
    | TransportOutcome.otherError =>
      ⟨s, ev0, FetchResult.err FetchError.transportOther⟩
    | TransportOutcome.response r =>
      let ev1 := ev0 ++ [FetchEvent.loading false]
      if r.status ≠ 200 ∧ r.status ≠ 304 then
        ⟨s, ev1, FetchResult.err (FetchError.unexpectedResponse r.status)⟩
      else
        let s1 : FetcherState T :=
          { s with
            etag := r.etagHeader
            lastFetchTimestamp := some nowAfter
            expires := createExpires cfg.parseDate r.expiresHeader }
        if r.status = 304 then
          ⟨s1, ev1, FetchResult.ok s1.value⟩
        else
          match r.body with
          | none => ⟨s1, ev1, FetchResult.ok s1.value⟩
          | some raw =>
            let ev2 := ev1 ++ [FetchEvent.convertCall]
            match cfg.converter raw with
            | none => ⟨s1, ev2, FetchResult.err FetchError.converterError⟩
            | some newValue =>
              match s1.value with
              | none =>
                ⟨{ s1 with value := some newValue },
                  ev2 ++ [FetchEvent.emitData newValue], FetchResult.ok (some newValue)⟩
              | some cur =>
                if cfg.isEqual cur newValue then
                  ⟨s1, ev2, FetchResult.ok (some cur)⟩
                else
                  ⟨{ s1 with value := some newValue },
                    ev2 ++ [FetchEvent.emitData newValue], FetchResult.ok (some newValue)⟩

/-- Guard characterising when `fetch()` reaches the point of issuing a
network request (it passes the undefined-interval early return, the
still-fresh early return, and the URL configuration check). -/
def issuesRequest {T : Type} (s : FetcherState T) (now : Int) : Bool :=
  match getRefreshIntervalInMilliseconds s now with
  | none => s.fetchRefreshesWithoutInterval && (s.url != "")
  | some i => decide (i ≤ 0) && (s.url != "")

/-- Model of the synchronous state mutation performed by
`FetcherWithEtag.reset(newUrl?)`: the guard `newUrl && newUrl !== this.url`
uses JS truthiness, so an absent or empty `newUrl` never clears the value. -/
def resetState {T : Type} (s : FetcherState T) (newUrl : Option String) : FetcherState T :=
  let s1 : FetcherState T :=
    { s with etag := none, expires := none, lastFetchTimestamp := none }
  if truthyStrOpt newUrl ∧ newUrl ≠ some s.url then
    { s1 with value := none, url := newUrl.getD s.url }
  else
    s1

/-- Outcome of one `refreshData()` invocation of the polling loop: the state
afterwards, the events of the inner `fetch()`, and whether
`dataSubject.error` terminated the change stream. -/
structure RefreshOut (T : Type) where
  state : FetcherState T
  events : List (FetchEvent T)
  streamErrored : Bool
deriving DecidableEq, Repr

/-- Model of `FetcherWithEtag.refreshData`: `fetch()` is awaited inside a
try/catch; a rejection that is not an `HttpErrorResponse` is swallowed, a
status other than 304 errors the data stream, and a 304 rejection updates
`etag`, `lastFetchTimestamp` (with `nowCatch`, the `Date.now()` of the catch
block) and `expires` from the failure's headers. -/
def refreshData {T RawT : Type} (cfg : FetcherConfig T RawT) (s : FetcherState T)
    (now nowAfter nowCatch : Int) (transport : TransportOutcome RawT) : RefreshOut T :=
  let out := fetchModel cfg s now nowAfter transport
  match out.result with
  | FetchResult.ok _ => ⟨out.state, out.events, false⟩
  | FetchResult.err e =>
    match e with
    | FetchError.transportHttp st eh xh =>
      if st ≠ 304 then
        ⟨out.state, out.events, true⟩
      else
        ⟨{ out.state with
            etag := eh
            lastFetchTimestamp := some nowCatch
            expires := createExpires cfg.parseDate xh },
          out.events, false⟩
    | _ => ⟨out.state, out.events, false⟩

/-- Observable state of a `PollingSubject` layered over an rxjs 7.8.1
`Subject`: whether the subject itself has been closed via
`Subject#unsubscribe`, the list of currently registered subscribers, and the
number of invocations of the `startPolling` and `endPolling` callbacks. -/
structure SubjectState where
  closed : Bool
  observers : List Nat
  startCount : Nat
  endCount : Nat
deriving DecidableEq, Repr

/-- Model of the rxjs `Subject#observed` getter: at least one registered
subscriber. -/
def SubjectState.isObserved (s : SubjectState) : Bool := s.observers != []

/-- State of a freshly constructed `PollingSubject`. -/
def initialSubject : SubjectState := ⟨false, [], 0, 0⟩

/-- Model of `PollingSubject._subscribe` over the rxjs 7.8.1 `Subject`
internals: `startPolling` is invoked when the subject is not currently
observed; `super._subscribe` then registers the subscriber in the observer
list (unless the subject was closed, in which case rxjs throws without
registering). -/
def pollingSubscribe (s : SubjectState) (id : Nat) : SubjectState :=
  let s1 := if s.isObserved then s else { s with startCount := s.startCount + 1 }
  if s1.closed then s1 else { s1 with observers := s1.observers ++ [id] }

/-- Model of unsubscribing the rxjs `Subscription` returned by `subscribe`:
its teardown (registered by `Subject._innerSubscribe` in rxjs 7.8.1) removes
the subscriber from the observer list directly, without ever calling the
overridden `PollingSubject.unsubscribe`. -/
def subscriptionUnsubscribe (s : SubjectState) (id : Nat) : SubjectState :=
  { s with observers := s.observers.erase id }

/-- Model of `PollingSubject.unsubscribe` (the override of
`Subject#unsubscribe`): `super.unsubscribe()` closes the subject and clears
the observer list, after which the subject is unobserved and `endPolling` is
invoked. -/
def pollingSubjectUnsubscribe (s : SubjectState) : SubjectState :=
  let s1 := { s with closed := true, observers := ([] : List Nat) }
  if s1.isObserved then s1 else { s1 with endCount := s1.endCount + 1 }

/-- Operations a client of the demand-driven stream can perform: subscribe,
unsubscribe the returned `Subscription`, or unsubscribe the subject itself. -/
inductive SubjectOp where
  | subscribe : Nat → SubjectOp
  | subUnsub : Nat → SubjectOp
  | subjectUnsub : SubjectOp
deriving DecidableEq, Repr

/-- Run of a sequence of subscribe and unsubscribe operations against a
`PollingSubject`. -/
def runSubjectOps (s : SubjectState) : List SubjectOp → SubjectState
  | [] => s
  | op :: rest =>
    let s1 :=
      match op with
      | SubjectOp.subscribe id => pollingSubscribe s id
      | SubjectOp.subUnsub id => subscriptionUnsubscribe s id
      | SubjectOp.subjectUnsub => pollingSubjectUnsubscribe s
    runSubjectOps s1 rest

/-- Model of `createById`: the reduce `map[key] = entity` over a JS object,
so a later entity with the same key overwrites an earlier one.  The mapping
is represented as a lookup function. -/
def createById {α κ : Type} [DecidableEq κ] (idOf : α → κ) (entities : List α) :
    κ → Option α :=
  entities.foldl (fun m e => fun k => if k = idOf e then some e else m k) (fun _ => none)

/-- Model of `LocalDataLoader.load`: lookup of `this.byId[id]`. -/
def localDataLoaderLoad {α κ : Type} (byId : κ → Option α) (id : κ) : Option α := byId id

/-- Overlay state after a sequence of upstream collection emissions (each an
item array): the `dataLoader$` pipeline with `shareReplay` of size one holds
the loader built from the most recent emission, and nothing before the first
emission. -/
def dataLoaderAfter {α κ : Type} [DecidableEq κ] (idOf : α → κ)
    (emissions : List (List α)) : Option (κ → Option α) :=
  emissions.getLast?.map (createById idOf)

/-! Claim C1: freshness computation. -/

/-- State used to refute claim C1 as literally stated: a value is cached, no
expiry is stored, and a refresh interval of 0 milliseconds is configured
(with a last fetch at timestamp 100, now being 200). -/
def c1State : FetcherState Nat :=
  ⟨"https://api.example.com/data", none, none, some 100, some 7, some 0, false⟩

/-- Claim C1, counterexample: with a configured refresh interval of 0 the
code returns `undefined` (the JS guard `!this.refreshInterval` treats 0 as
absent), while the claim - a refresh interval is configured and neither
remaining duration is present - requires the result 0. -/
theorem C1_counterexample :
    getRefreshIntervalInMilliseconds c1State 200 = none ∧
    claimedRefreshIntervalC1 c1State 200 = some 0 ∧
    getRefreshIntervalInMilliseconds c1State 200 ≠ claimedRefreshIntervalC1 c1State 200 := by
  decide

/-- Claim C1, amended: `getRefreshIntervalInMilliseconds` returns `undefined`
exactly when a value is known and neither a truthy expiry (non-null, non-NaN,
non-zero) nor a truthy refresh interval is present; otherwise the minimum of
the present remaining durations, where the expiry duration counts only when
the stored expiry is truthy and in the future and the refresh duration only
when last-fetch timestamp and refresh interval are both truthy and the
difference is positive; and 0 when neither is present. -/
theorem C1_amended_refresh_interval {T : Type} (s : FetcherState T) (now : Int) :
    getRefreshIntervalInMilliseconds s now = truthyRefreshIntervalC1 s now := by
  obtain ⟨url, etag, expires, lft, value, ri, frwi⟩ := s
  unfold getRefreshIntervalInMilliseconds truthyRefreshIntervalC1
  rcases expires with _ | (_ | e) <;>
    rcases lft with _ | l <;>
    rcases ri with _ | r <;>
    rcases value with _ | v <;>
    simp only [truthyNumOpt, truthyIntOpt, Option.isSome] <;>
    split_ifs <;>
    simp_all <;>
    omega

/-! Claim C2: change suppression. -/

/-- Claim C2: a 304 response never invokes the converter and never emits on
the change stream; a 200 response whose converted body is `isEqual` to the
cached value keeps the cached value and emits nothing; and a value is stored
and emitted only when no prior value exists or `isEqual` is false. -/
theorem C2_change_suppression {T RawT : Type} (cfg : FetcherConfig T RawT)
    (s : FetcherState T) (now nowAfter : Int) (r : HttpResponseModel RawT) :
    (r.status = 304 →
      FetchEvent.convertCall ∉
        (fetchModel cfg s now nowAfter (TransportOutcome.response r)).events ∧
      ∀ v : T, FetchEvent.emitData v ∉
        (fetchModel cfg s now nowAfter (TransportOutcome.response r)).events) ∧
    (∀ raw nv cur, r.status = 200 → r.body = some raw → cfg.converter raw = some nv →
      s.value = some cur → cfg.isEqual cur nv = true →
      (fetchModel cfg s now nowAfter (TransportOutcome.response r)).state.value = some cur ∧
      ∀ v : T, FetchEvent.emitData v ∉
        (fetchModel cfg s now nowAfter (TransportOutcome.response r)).events) ∧
    (∀ v : T, FetchEvent.emitData v ∈
        (fetchModel cfg s now nowAfter (TransportOutcome.response r)).events →
      (fetchModel cfg s now nowAfter (TransportOutcome.response r)).state.value = some v ∧
      (s.value = none ∨ ∃ cur, s.value = some cur ∧ cfg.isEqual cur v = false)) := by
  obtain ⟨st, eh, xh, body⟩ := r
  simp only [fetchModel]
  by_cases h1 : getRefreshIntervalInMilliseconds s now = none ∧
      s.fetchRefreshesWithoutInterval = false
  · refine ⟨by simp [h1], ?_, by simp [h1]⟩
    intro raw nv cur _ _ _ hval _
    simp [h1, hval]
  by_cases h2 : 0 < (getRefreshIntervalInMilliseconds s now).getD 0
  · refine ⟨by simp [h1, h2], ?_, by simp [h1, h2]⟩
    intro raw nv cur _ _ _ hval _
    simp [h1, h2, hval]
  by_cases h3 : s.url = ""
  · refine ⟨by simp [h1, h2, h3], ?_, by simp [h1, h2, h3]⟩
    intro raw nv cur _ _ _ hval _
    simp [h1, h2, h3, hval]
  simp only [h1, h2, h3, if_false, ite_false, reduceIte]
  refine ⟨?_, ?_, ?_⟩
  · intro h304
    subst h304
    simp
  · intro raw nv cur h200 hbody hconv hval heq
    subst h200
    subst hbody
    simp [hconv, hval, heq]
  · intro v hv
    by_cases hst : st ≠ 200 ∧ st ≠ 304
    · simp [hst] at hv
    by_cases h304 : st = 304
    · simp [hst, h304] at hv
    have h200 : st = 200 := by
      rcases Decidable.not_and_iff_or_not.mp hst with h | h
      · exact Decidable.not_not.mp h
      · exact absurd (Decidable.not_not.mp h) h304
    subst h200
    rcases body with _ | raw
    · simp at hv
    rcases hc : cfg.converter raw with _ | nv
    · simp [hc] at hv
    rcases hsv : s.value with _ | cur
    · simp only [hc, hsv] at hv ⊢
      simp at hv
      subst hv
      simp [hc, hsv]
    by_cases heq : cfg.isEqual cur nv = true
    · simp [hc, hsv, heq] at hv
    · simp only [hc, hsv, if_neg heq] at hv ⊢
      simp [heq] at hv
      subst hv
      refine ⟨by simp [hc, hsv, heq], Or.inr ⟨cur, rfl, ?_⟩⟩
      simpa using heq

/-- Configuration used in the C2 witness: identity converter, numeric
equality, constant date parser. -/
def c2cfg : FetcherConfig Nat Nat := ⟨fun n => some n, fun a b => a == b, fun _ => JsNum.num 0⟩

/-- State used in the C2 witness: a cached value 5 whose refresh interval has
elapsed. -/
def c2State : FetcherState Nat := ⟨"u", some "e0", none, some 1, some 5, some 3, false⟩

/-- Response used in the C2 witness: a 200 whose converted body equals the
cached value. -/
def c2r : HttpResponseModel Nat := ⟨200, some "e1", none, some 5⟩

/-- Witness for C2 at a concrete input: a 200 response converting to a value
equal to the cached one leaves the cached value in place. -/
theorem C2_witness :
    (fetchModel c2cfg c2State 100 110 (TransportOutcome.response c2r)).state.value = some 5 :=
  ((C2_change_suppression c2cfg c2State 100 110 c2r).2.1 5 5 5 rfl rfl rfl rfl rfl).1

/-! Claim C3: converter failure. -/

/-- Guard `issuesRequest` unfolded into the three early-return conditions of
`fetch()`. -/
theorem issuesRequest_iff {T : Type} (s : FetcherState T) (now : Int) :
    issuesRequest s now = true ↔
      ¬(getRefreshIntervalInMilliseconds s now = none ∧
          s.fetchRefreshesWithoutInterval = false) ∧
      ¬(0 < (getRefreshIntervalInMilliseconds s now).getD 0) ∧ ¬(s.url = "") := by
  unfold issuesRequest
  rcases h : getRefreshIntervalInMilliseconds s now with _ | i
  · simp
  · simp only [Bool.and_eq_true, decide_eq_true_eq, bne_iff_ne, ne_eq, Option.getD_some]
    constructor
    · rintro ⟨hle, hurl⟩
      exact ⟨by simp, by omega, hurl⟩
    · rintro ⟨-, hpos, hurl⟩
      exact ⟨by omega, hurl⟩

/-- Configuration used against claim C3: a converter that always throws. -/
def c3cfg : FetcherConfig Nat Nat := ⟨fun _ => none, fun a b => a == b, fun _ => JsNum.num 0⟩

/-- State used against claim C3: a cached value with etag `old` whose refresh
interval has elapsed. -/
def c3State : FetcherState Nat := ⟨"u", some "old", none, some 1, some 7, some 5, false⟩

/-- Response used against claim C3: a 200 carrying etag `new` whose body the
converter rejects. -/
def c3r : HttpResponseModel Nat := ⟨200, some "new", none, some 3⟩

/-- Claim C3, counterexample: when the converter throws on a 200 body the
fetch does fail and the cached value is untouched, but `etag` and
`lastFetchTimestamp` have already been overwritten from the response before
the converter ran, so the prior cached state is not left untouched. -/
theorem C3_counterexample :
    (fetchModel c3cfg c3State 100 110 (TransportOutcome.response c3r)).result
        = FetchResult.err FetchError.converterError ∧
    c3State.etag = some "old" ∧
    (fetchModel c3cfg c3State 100 110 (TransportOutcome.response c3r)).state.etag
        = some "new" ∧
    c3State.lastFetchTimestamp = some 1 ∧
    (fetchModel c3cfg c3State 100 110 (TransportOutcome.response c3r)).state.lastFetchTimestamp
        = some 110 ∧
    (fetchModel c3cfg c3State 100 110 (TransportOutcome.response c3r)).state.value = some 7 := by
  decide

/-- Claim C3, amended: a converter failure on a 200 body propagates as a
fetch failure and the cached value is left untouched, but `etag`,
`lastFetchTimestamp` and `expires` have already been updated from the
response at that point. -/
theorem C3_converter_failure_amended {T RawT : Type} (cfg : FetcherConfig T RawT)
    (s : FetcherState T) (now nowAfter : Int) (r : HttpResponseModel RawT) (raw : RawT)
    (hreq : issuesRequest s now = true) (h200 : r.status = 200)
    (hbody : r.body = some raw) (hconv : cfg.converter raw = none) :
    (fetchModel cfg s now nowAfter (TransportOutcome.response r)).result
        = FetchResult.err FetchError.converterError ∧
    (fetchModel cfg s now nowAfter (TransportOutcome.response r)).state.value = s.value ∧
    (fetchModel cfg s now nowAfter (TransportOutcome.response r)).state.etag = r.etagHeader ∧
    (fetchModel cfg s now nowAfter (TransportOutcome.response r)).state.lastFetchTimestamp
        = some nowAfter ∧
    (fetchModel cfg s now nowAfter (TransportOutcome.response r)).state.expires
        = createExpires cfg.parseDate r.expiresHeader := by
  obtain ⟨hg1, hg2, hg3⟩ := (issuesRequest_iff s now).mp hreq
  obtain ⟨st, eh, xh, body⟩ := r
  simp only at h200 hbody
  subst h200
  subst hbody
  simp [fetchModel, hg1, hg2, hg3, hconv]

/-- Witness for the amended C3 at a concrete input: the cached value 7
survives the converter failure. -/
theorem C3_witness :
    (fetchModel c3cfg c3State 100 110 (TransportOutcome.response c3r)).state.value
        = c3State.value :=
  (C3_converter_failure_amended c3cfg c3State 100 110 c3r 3 (by decide) rfl rfl rfl).2.1

/-! Claim C4: etag and expiry bookkeeping after a successful fetch. -/

/-- Stored expiry as described by claim C4, read literally: null whenever the
`Expires` header is absent or unparsable (the platform parser yields NaN). -/
def claimedExpiresC4 (parseDate : String → JsNum) : Option String → Option JsNum
  | none => none
  | some str =>
    match parseDate str with
    | JsNum.nan => none
    | JsNum.num t => some (JsNum.num t)

/-- Fresh fetcher state shared by several concrete scenarios: URL `u`, no
etag, no expiry, no previous fetch, no cached value, no refresh interval. -/
def baseState : FetcherState Nat := ⟨"u", none, none, none, none, none, false⟩

/-- Configuration whose date parser models `new Date` on unparsable input:
every date string parses to NaN. -/
def c4cfg : FetcherConfig Nat Nat := ⟨fun n => some n, fun a b => a == b, fun _ => JsNum.nan⟩

/-- Response used against claim C4: a 200 whose `Expires` header is present
but unparsable. -/
def c4r : HttpResponseModel Nat := ⟨200, none, some "not-a-date", some 3⟩

/-- Claim C4, counterexample: an unparsable `Expires` header stores NaN (the
raw `new Date(...).getTime()` result), not null as the claim requires. -/
theorem C4_counterexample :
    (fetchModel c4cfg baseState 0 10 (TransportOutcome.response c4r)).state.expires
        = some JsNum.nan ∧
    claimedExpiresC4 c4cfg.parseDate c4r.expiresHeader = none ∧
    (fetchModel c4cfg baseState 0 10 (TransportOutcome.response c4r)).state.expires
        ≠ claimedExpiresC4 c4cfg.parseDate c4r.expiresHeader := by
  decide

/-- Claim C4, amended: after a fetch that receives a 200 or 304 response, the
stored etag equals the response's `ETag` header (null when absent) and the
stored expiry equals `createExpires` of the `Expires` header: null when the
header is absent or empty, and otherwise the platform date-parse result,
which is NaN rather than null for unparsable dates; `lastFetchTimestamp` is
set to the response time. -/
theorem C4_headers_after_response_amended {T RawT : Type} (cfg : FetcherConfig T RawT)
    (s : FetcherState T) (now nowAfter : Int) (r : HttpResponseModel RawT)
    (hreq : issuesRequest s now = true) (hst : r.status = 200 ∨ r.status = 304) :
    (fetchModel cfg s now nowAfter (TransportOutcome.response r)).state.etag
        = r.etagHeader ∧
    (fetchModel cfg s now nowAfter (TransportOutcome.response r)).state.expires
        = createExpires cfg.parseDate r.expiresHeader ∧
    (fetchModel cfg s now nowAfter (TransportOutcome.response r)).state.lastFetchTimestamp
        = some nowAfter := by
  obtain ⟨hg1, hg2, hg3⟩ := (issuesRequest_iff s now).mp hreq
  obtain ⟨st, eh, xh, body⟩ := r
  simp only at hst
  rcases hst with h | h
  · subst h
    rcases body with _ | raw
    · simp [fetchModel, hg1, hg2, hg3]
    rcases hc : cfg.converter raw with _ | nv
    · simp [fetchModel, hg1, hg2, hg3, hc]
    rcases hsv : s.value with _ | cur
    · simp [fetchModel, hg1, hg2, hg3, hc, hsv]
    by_cases heq : cfg.isEqual cur nv = true <;>
      simp [fetchModel, hg1, hg2, hg3, hc, hsv, heq]
  · subst h
    simp [fetchModel, hg1, hg2, hg3]

/-- Witness for the amended C4 at a concrete input: the unparsable header
scenario records the response time. -/
theorem C4_witness :
    (fetchModel c4cfg baseState 0 10 (TransportOutcome.response c4r)).state.lastFetchTimestamp
        = some 10 :=
  (C4_headers_after_response_amended c4cfg baseState 0 10 c4r (by decide)
    (Or.inl rfl)).2.2

/-! Claim C5: loading signal around the network request. -/

/-- Claim C5, counterexample: when the transport rejects (here an
`HttpErrorResponse` with status 500), the exception propagates past
`loadingSubject.next(false)`, so loading ends never — the events stop at
`loading true` and the request. -/
theorem C5_counterexample :
    (fetchModel c4cfg baseState 0 10
        (TransportOutcome.httpError 500 none none : TransportOutcome Nat)).events
        = [FetchEvent.loading true, FetchEvent.request none] ∧
    FetchEvent.loading false ∉
      (fetchModel c4cfg baseState 0 10
        (TransportOutcome.httpError 500 none none : TransportOutcome Nat)).events := by
  decide

/-- Claim C5, amended: for every fetch that issues a request, `loading true`
is emitted before the request; when the transport resolves with a response
(of any status) `loading false` is emitted immediately after it and no
further loading events occur; when the transport rejects, no `loading false`
is ever emitted. -/
theorem C5_loading_amended {T RawT : Type} (cfg : FetcherConfig T RawT)
    (s : FetcherState T) (now nowAfter : Int) (transport : TransportOutcome RawT)
    (hreq : issuesRequest s now = true) :
    (fetchModel cfg s now nowAfter transport).events.take 2
        = [FetchEvent.loading true, FetchEvent.request (ifNoneMatchHeader s.etag)] ∧
    (∀ r, transport = TransportOutcome.response r →
      (fetchModel cfg s now nowAfter transport).events.take 3
          = [FetchEvent.loading true, FetchEvent.request (ifNoneMatchHeader s.etag),
             FetchEvent.loading false] ∧
      ∀ b, FetchEvent.loading b ∉ (fetchModel cfg s now nowAfter transport).events.drop 3) ∧
    (∀ st eh xh, transport = TransportOutcome.httpError st eh xh →
      (fetchModel cfg s now nowAfter transport).events
          = [FetchEvent.loading true, FetchEvent.request (ifNoneMatchHeader s.etag)]) ∧
    (transport = TransportOutcome.otherError →
      (fetchModel cfg s now nowAfter transport).events
          = [FetchEvent.loading true, FetchEvent.request (ifNoneMatchHeader s.etag)]) := by
  obtain ⟨hg1, hg2, hg3⟩ := (issuesRequest_iff s now).mp hreq
  rcases transport with r | ⟨st, eh, xh⟩ | _
  · have hev : ∃ tail, (fetchModel cfg s now nowAfter (TransportOutcome.response r)).events
        = [FetchEvent.loading true, FetchEvent.request (ifNoneMatchHeader s.etag),
            FetchEvent.loading false] ++ tail ∧ ∀ b, FetchEvent.loading b ∉ tail := by
      obtain ⟨st, eh, xh, body⟩ := r
      by_cases hst : st ≠ 200 ∧ st ≠ 304
      · exact ⟨[], by simp [fetchModel, hg1, hg2, hg3, hst], by simp⟩
      by_cases h304 : st = 304
      · subst h304
        exact ⟨[], by simp [fetchModel, hg1, hg2, hg3], by simp⟩
      have h200 : st = 200 := by
        rcases Decidable.not_and_iff_or_not.mp hst with h | h
        · exact Decidable.not_not.mp h
        · exact absurd (Decidable.not_not.mp h) h304
      subst h200
      rcases body with _ | raw
      · exact ⟨[], by simp [fetchModel, hg1, hg2, hg3], by simp⟩
      rcases hc : cfg.converter raw with _ | nv
      · exact ⟨[FetchEvent.convertCall],
          by simp [fetchModel, hg1, hg2, hg3, hc], by simp⟩
      rcases hsv : s.value with _ | cur
      · exact ⟨[FetchEvent.convertCall, FetchEvent.emitData nv],
          by simp [fetchModel, hg1, hg2, hg3, hc, hsv], by simp⟩
      by_cases heq : cfg.isEqual cur nv = true
      · exact ⟨[FetchEvent.convertCall],
          by simp [fetchModel, hg1, hg2, hg3, hc, hsv, heq], by simp⟩
      · exact ⟨[FetchEvent.convertCall, FetchEvent.emitData nv],
          by simp [fetchModel, hg1, hg2, hg3, hc, hsv, heq], by simp⟩
    obtain ⟨tail, htail, hb⟩ := hev
    refine ⟨by rw [htail]; rfl, ?_, by rintro _ _ _ ⟨⟩, by rintro ⟨⟩⟩
    intro r2 _
    refine ⟨by rw [htail]; rfl, ?_⟩
    intro b
    rw [htail]
    simpa using hb b
  · refine ⟨by simp [fetchModel, hg1, hg2, hg3], by rintro _ ⟨⟩, ?_, by rintro ⟨⟩⟩
    rintro st2 eh2 xh2 ⟨⟩
    simp [fetchModel, hg1, hg2, hg3]
  · refine ⟨by simp [fetchModel, hg1, hg2, hg3], by rintro _ ⟨⟩, by rintro _ _ _ ⟨⟩, ?_⟩
    intro _
    simp [fetchModel, hg1, hg2, hg3]

/-- Witness for the amended C5 at a concrete input: a resolving request is
bracketed by `loading true` and `loading false`. -/
theorem C5_witness :
    (fetchModel c4cfg baseState 0 10 (TransportOutcome.response c4r)).events.take 3
        = [FetchEvent.loading true, FetchEvent.request none, FetchEvent.loading false] :=
  ((C5_loading_amended c4cfg baseState 0 10 (TransportOutcome.response c4r)
      (by decide)).2.1 c4r rfl).1

/-! Claim C6: reset. -/

/-- State used against claim C6: URL `a` with every cache field populated. -/
def c6State : FetcherState Nat :=
  ⟨"a", some "e", some (JsNum.num 3), some 4, some 9, none, false⟩

/-- Claim C6, counterexample: the empty string is a `newUrl` different from
the current URL `a`, yet `reset` neither clears the cached value nor
switches the URL, because the guard `newUrl && newUrl !== this.url` treats
the empty string as falsy. -/
theorem C6_counterexample :
    some "" ≠ some c6State.url ∧
    (resetState c6State (some "")).value = some 9 ∧
    (resetState c6State (some "")).url = "a" := by
  decide

/-- Claim C6, amended: `reset(newUrl)` clears `etag`, `expires` and
`lastFetchTimestamp` unconditionally and touches no other field of the state;
the cached value is cleared and the URL switched exactly when a truthy
(non-empty) `newUrl` different from the current URL is supplied, and
otherwise both are preserved. -/
theorem C6_reset_amended {T : Type} (s : FetcherState T) (newUrl : Option String) :
    (resetState s newUrl).etag = none ∧
    (resetState s newUrl).expires = none ∧
    (resetState s newUrl).lastFetchTimestamp = none ∧
    (resetState s newUrl).refreshInterval = s.refreshInterval ∧
    (resetState s newUrl).fetchRefreshesWithoutInterval = s.fetchRefreshesWithoutInterval ∧
    (truthyStrOpt newUrl = true ∧ newUrl ≠ some s.url →
      (resetState s newUrl).value = none ∧ (resetState s newUrl).url = newUrl.getD s.url) ∧
    (¬(truthyStrOpt newUrl = true ∧ newUrl ≠ some s.url) →
      (resetState s newUrl).value = s.value ∧ (resetState s newUrl).url = s.url) := by
  by_cases h : truthyStrOpt newUrl = true ∧ newUrl ≠ some s.url <;>
    simp [resetState, h]

/-- Witness for the amended C6 at a concrete input: a truthy different URL
clears the value and switches the URL. -/
theorem C6_witness :
    (resetState c6State (some "b")).value = none ∧
    (resetState c6State (some "b")).url = (some "b").getD c6State.url :=
  (C6_reset_amended c6State (some "b")).2.2.2.2.2.1 ⟨by decide, by decide⟩

/-! Claim C7: failure handling in the polling loop. -/

/-- Claim C7: inside `refreshData`, a fetch failure that is an
`HttpErrorResponse` with status 304 updates `etag`, `lastFetchTimestamp` and
`expires` from the failure's headers without erroring the stream; an
`HttpErrorResponse` with any other status errors the change stream; and a
failure that is not an `HttpErrorResponse` is swallowed without erroring. -/
theorem C7_polling_failure_handling {T RawT : Type} (cfg : FetcherConfig T RawT)
    (s : FetcherState T) (now nowAfter nowCatch : Int) (transport : TransportOutcome RawT) :
    (∀ eh xh,
      (fetchModel cfg s now nowAfter transport).result
          = FetchResult.err (FetchError.transportHttp 304 eh xh) →
      (refreshData cfg s now nowAfter nowCatch transport).streamErrored = false ∧
      (refreshData cfg s now nowAfter nowCatch transport).state.etag = eh ∧
      (refreshData cfg s now nowAfter nowCatch transport).state.lastFetchTimestamp
          = some nowCatch ∧
      (refreshData cfg s now nowAfter nowCatch transport).state.expires
          = createExpires cfg.parseDate xh) ∧
    (∀ st eh xh, st ≠ 304 →
      (fetchModel cfg s now nowAfter transport).result
          = FetchResult.err (FetchError.transportHttp st eh xh) →
      (refreshData cfg s now nowAfter nowCatch transport).streamErrored = true) ∧
    (∀ e, (fetchModel cfg s now nowAfter transport).result = FetchResult.err e →
      (∀ st eh xh, e ≠ FetchError.transportHttp st eh xh) →
      (refreshData cfg s now nowAfter nowCatch transport).streamErrored = false ∧
      (refreshData cfg s now nowAfter nowCatch transport).state
          = (fetchModel cfg s now nowAfter transport).state) := by
  refine ⟨?_, ?_, ?_⟩
  · intro eh xh hres
    simp [refreshData, hres]
  · intro st eh xh hne hres
    simp [refreshData, hres, hne]
  · intro e hres hne
    cases e with
    | urlNotSet => simp [refreshData, hres]
    | unexpectedResponse st => simp [refreshData, hres]
    | converterError => simp [refreshData, hres]
    | transportHttp st eh xh => exact absurd rfl (hne st eh xh)
    | transportOther => simp [refreshData, hres]

/-- State used in the C7 witness: a cached value whose refresh interval has
elapsed. -/
def c7State : FetcherState Nat := ⟨"u", some "E0", none, some 1, some 9, some 5, false⟩

/-- Witness for C7 at a concrete input: a 304 `HttpErrorResponse` during
polling updates the revalidation state and leaves the stream alive. -/
theorem C7_witness :
    (refreshData c2cfg c7State 100 110 120
        (TransportOutcome.httpError 304 (some "E2") (some "xd") : TransportOutcome Nat)).streamErrored
        = false ∧
    (refreshData c2cfg c7State 100 110 120
        (TransportOutcome.httpError 304 (some "E2") (some "xd") : TransportOutcome Nat)).state.etag
        = some "E2" ∧
    (refreshData c2cfg c7State 100 110 120
        (TransportOutcome.httpError 304 (some "E2") (some "xd") : TransportOutcome Nat)).state.lastFetchTimestamp
        = some 120 :=
  ⟨((C7_polling_failure_handling c2cfg c7State 100 110 120
      (TransportOutcome.httpError 304 (some "E2") (some "xd"))).1 (some "E2") (some "xd")
      (by decide)).1,
   ((C7_polling_failure_handling c2cfg c7State 100 110 120
      (TransportOutcome.httpError 304 (some "E2") (some "xd"))).1 (some "E2") (some "xd")
      (by decide)).2.1,
   ((C7_polling_failure_handling c2cfg c7State 100 110 120
      (TransportOutcome.httpError 304 (some "E2") (some "xd"))).1 (some "E2") (some "xd")
      (by decide)).2.2.1⟩

/-! Claim C8: start and stop polling callbacks of the demand-driven stream. -/

/-- Run used against claim C8: one subscriber subscribes to the
`PollingSubject` and then unsubscribes the returned `Subscription`. -/
def c8Run : SubjectState :=
  runSubjectOps initialSubject [SubjectOp.subscribe 0, SubjectOp.subUnsub 0]

/-- Claim C8, evidence at the failing input: after the only subscriber
subscribes and unsubscribes its `Subscription`, the subject has transitioned
from one subscriber to zero (`observers = []`), `startPolling` was invoked
once on the zero-to-one transition, but `endPolling` was never invoked —
the rxjs `Subscription` teardown removes the observer directly and never
calls the overridden `PollingSubject.unsubscribe`. -/
theorem C8_endPolling_never_invoked :
    c8Run.observers = [] ∧ c8Run.startCount = 1 ∧ c8Run.endCount = 0 ∧
    (runSubjectOps initialSubject [SubjectOp.subscribe 0]).observers = [0] := by
  decide

/-! Claim C9: the index overlay lookup. -/

/-- Lookup through the accumulator form of `createById`: the result is the
last matching entity when one exists, and the initial mapping's answer
otherwise. -/
theorem createById_foldl_lookup {α κ : Type} [DecidableEq κ] (idOf : α → κ) :
    ∀ (es : List α) (m : κ → Option α) (k : κ),
      (es.foldl (fun m2 e => fun k2 => if k2 = idOf e then some e else m2 k2) m) k
        = (es.reverse.find? (fun e => decide (idOf e = k))).or (m k) := by
  intro es
  induction es with
  | nil => intro m k; simp
  | cons e es ih =>
    intro m k
    simp only [List.foldl_cons, List.reverse_cons]
    rw [ih, List.find?_append, Option.or_assoc]
    congr 1
    simp only [List.find?_cons, List.find?_nil]
    by_cases hpe : idOf e = k
    · subst hpe
      simp
    · have hke : ¬k = idOf e := fun h => hpe h.symm
      simp [hpe, hke]

/-- Lookup in `createById` finds the last entity of the array whose
identifier equals the key. -/
theorem createById_eq_last {α κ : Type} [DecidableEq κ] (idOf : α → κ)
    (es : List α) (k : κ) :
    createById idOf es k = es.reverse.find? (fun e => decide (idOf e = k)) := by
  unfold createById
  rw [createById_foldl_lookup]
  simp

/-- Claim C9: after a sequence of upstream emissions, the overlay's loader
is absent exactly when nothing was emitted yet, and otherwise `load(id)`
returns the last item of the most recently emitted array whose identifier
field equals `id` (absent when none matches). -/
theorem C9_overlay_load {α κ : Type} [DecidableEq κ] (idOf : α → κ)
    (emissions : List (List α)) (id : κ) :
    (dataLoaderAfter idOf emissions = none ↔ emissions = []) ∧
    (∀ items, emissions.getLast? = some items →
      dataLoaderAfter idOf emissions = some (createById idOf items) ∧
      localDataLoaderLoad (createById idOf items) id
          = items.reverse.find? (fun e => decide (idOf e = id))) := by
  constructor
  · simp [dataLoaderAfter, Option.map_eq_none', List.getLast?_eq_none_iff]
  · intro items h
    refine ⟨by simp [dataLoaderAfter, h], ?_⟩
    unfold localDataLoaderLoad
    exact createById_eq_last idOf items id

/-- Items used in the C9 witness: two items share the identifier 1. -/
def c9Items : List (Nat × Nat) := [(1, 10), (2, 20), (1, 30)]

/-- Witness for C9 at a concrete input: with a duplicated identifier the
last item in array order wins. -/
theorem C9_witness :
    localDataLoaderLoad (createById Prod.fst c9Items) 1 = some (1, 30) :=
  ((C9_overlay_load Prod.fst [c9Items] 1).2 c9Items rfl).2

/-! Claim C10: fetch can resolve to undefined. -/

/-- Configuration used for claim C10: identity converter and a date parser
that places every `Expires` header at timestamp 1000. -/
def c10cfg : FetcherConfig Nat Nat :=
  ⟨fun n => some n, fun a b => a == b, fun _ => JsNum.num 1000⟩

/-- Response used for claim C10: a 200 with headers but an empty body. -/
def c10r : HttpResponseModel Nat := ⟨200, some "e1", some "future", none⟩

/-- Claim C10: starting from a fresh state with no cached value, a 200
response with an empty body makes `fetch()` resolve without error to an
undefined value (the non-null assertion on `this.value` is unjustified),
and a second `fetch()` within the freshness window of that response's
`Expires` header resolves to undefined again without issuing any request. -/
theorem C10_fetch_resolves_undefined :
    (fetchModel c10cfg baseState 0 10 (TransportOutcome.response c10r)).result
        = FetchResult.ok none ∧
    FetchEvent.request none ∈
      (fetchModel c10cfg baseState 0 10 (TransportOutcome.response c10r)).events ∧
    (fetchModel c10cfg baseState 0 10 (TransportOutcome.response c10r)).state.value = none ∧
    (fetchModel c10cfg baseState 0 10 (TransportOutcome.response c10r)).state.expires
        = some (JsNum.num 1000) ∧
    (fetchModel c10cfg
        (fetchModel c10cfg baseState 0 10 (TransportOutcome.response c10r)).state 500 510
        TransportOutcome.otherError).result = FetchResult.ok none ∧
    (fetchModel c10cfg
        (fetchModel c10cfg baseState 0 10 (TransportOutcome.response c10r)).state 500 510
        TransportOutcome.otherError).events = [] := by
  decide

end NgxFetcher
